import Mathlib

/-!
Verification development for the HDDSynth repository.

The central algorithm is the debounced HDD-activity classifier of
src/prototypes/main_mk3_debounce.py: a loop that drains two PIO FIFOs
(IOR and IOW strobes), counts samples at the drive's data port (0x1F0)
and status port (0x1F7), resets the counters on an inactivity timeout,
and fires a "busy" pulse when a counter exceeds the activity threshold.
Further embeddings cover the audio control loop and shutdown paths of
src/main.py and src/main_circuitpython.py, the volume quantizer of
src/2_prototype_mk2/software/volume.py, and the configuration validator
of src/config.py.

Conventions: machine integers become Nat (MicroPython ints are unbounded;
times are monotone millisecond ticks, so time.ticks_diff(a, b) for
non-wrapping monotone ticks is modelled by Nat subtraction a - b, which
like ticks_diff is never "> timeout" when a ≤ b). Python exceptions that
the code catches are modelled by explicit failure flags in the input; the
embedded functions are total exactly because the source handlers swallow
the exception.
-/

namespace HDDSynth

/-! ### ActivityClassifier state, from src/prototypes/main_mk3_debounce.py

`data_count` is the module global `hdd_activity_counter`,
`poll_count` is `hdd_poll_counter`, and `last_activity_time` is
`last_activity_time` (milliseconds, `time.ticks_ms`). -/

structure ClassifierState where
  data_count : Nat
  poll_count : Nat
  last_activity_time : Nat
deriving Repr, DecidableEq

/-- Data port address monitored by the classifier (config.py HDD_DATA_PORT,
and the literal 0x1F0 in main_mk3_debounce.py). -/
def HDD_DATA_PORT : Nat := 0x1F0

/-- Status port address monitored by the classifier (config.py
HDD_STATUS_PORT, and the literal 0x1F7 in main_mk3_debounce.py). -/
def HDD_STATUS_PORT : Nat := 0x1F7

/-- Processing of one dequeued FIFO word, lines 119-138 of
main_mk3_debounce.py.  Note the source sets `last_activity_time =
current_time` before looking at the address, so every dequeued sample
updates the timestamp; only the two monitored addresses bump a counter. -/
def applySample (s : ClassifierState) (t : Nat) (sample : Option Nat) :
    ClassifierState :=
  match sample with
  | none => s
  | some addr =>
    if addr = HDD_DATA_PORT then
      { s with last_activity_time := t, data_count := s.data_count + 1 }
    else if addr = HDD_STATUS_PORT then
      { s with last_activity_time := t, poll_count := s.poll_count + 1 }
    else
      { s with last_activity_time := t }

/-- The two threshold checks at the end of each iteration, lines 140-148
of main_mk3_debounce.py: a counter strictly above the threshold fires and
is reset to zero. -/
def thresholdStage (threshold : Nat) (s : ClassifierState) :
    ClassifierState × Bool :=
  let dataFired := decide (s.data_count > threshold)
  let s4 := if dataFired then { s with data_count := 0 } else s
  let pollFired := decide (s4.poll_count > threshold)
  let s5 := if pollFired then { s4 with poll_count := 0 } else s4
  (s5, dataFired || pollFired)

/-- One iteration of the monitoring loop, lines 109-152 of
main_mk3_debounce.py: timeout reset, drain at most one word from each of
the IOR and IOW FIFOs, then the two threshold checks.  The returned Bool
is the tick's busy output: the source prints "H" when the data counter
exceeds the threshold and "P" when the poll counter does; per the spec
the effective busy signal is their logical OR. -/
def classifyStep (timeout threshold : Nat) (s : ClassifierState) (t : Nat)
    (ior iow : Option Nat) : ClassifierState × Bool :=
  let s1 := if t - s.last_activity_time > timeout then
              { s with data_count := 0, poll_count := 0 } else s
  let s2 := applySample s1 t ior
  let s3 := applySample s2 t iow
  thresholdStage threshold s3

/-- Run the loop over a list of ticks, each tick being (current_time,
word dequeued from the IOR FIFO, word dequeued from the IOW FIFO); returns
the final state and the number of ticks whose busy output was true. -/
def runSamples (timeout threshold : Nat) (s : ClassifierState) :
    List (Nat × Option Nat × Option Nat) → ClassifierState × Nat
  | [] => (s, 0)
  | tk :: rest =>
    let r := classifyStep timeout threshold s tk.1 tk.2.1 tk.2.2
    let q := runSamples timeout threshold r.1 rest
    (q.1, (if r.2 then 1 else 0) + q.2)

/-- Ticks that each deliver one IOR sample at the data port. -/
def dataTicks (ts : List Nat) : List (Nat × Option Nat × Option Nat) :=
  ts.map fun t => (t, some HDD_DATA_PORT, none)

/-- Ticks on which no FIFO word is available. -/
def idleTicks (ts : List Nat) : List (Nat × Option Nat × Option Nat) :=
  ts.map fun t => (t, none, none)

/-- The last element of `ts`, or `d` when `ts` is empty: the value
`last_activity_time` holds after a run of data ticks at times `ts`. -/
def lastTime (d : Nat) : List Nat → Nat
  | [] => d
  | t :: ts => lastTime t ts

/-- Times `ts` form a nondecreasing chain starting at `last` with every
gap strictly below `timeout`. -/
def withinTimeoutB (timeout : Nat) (last : Nat) : List Nat → Bool
  | [] => true
  | t :: ts => (last ≤ t && t - last < timeout) && withinTimeoutB timeout t ts

/-! ### Audio control loop, from HDDSynth.start

src/main_circuitpython.py lines 288-327 and src/main.py lines 450-492
run the same polling loop (simulation mode off): read the busy signal,
and when it differs from the remembered `last_hdd` start the other
sample and sleep HDD_STATE_CHANGE_DELAY_MS (50 ms); every iteration ends
with a MAIN_LOOP_DELAY_MS (1 ms) sleep.  For the hysteresis claim only
the time accounting and `last_hdd` matter; the audio calls take no
modelled time (any real time they take only widens the enforced gap). -/

structure LoopState where
  t : Nat
  last_hdd : Bool
deriving Repr, DecidableEq

/-- One iteration of the polling loop.  `busy` is the busy signal as a
function of the monotonic clock, sampled at the iteration's start time. -/
def loopStep (delay loopDelay : Nat) (busy : Nat → Bool) (s : LoopState) :
    LoopState :=
  let h := busy s.t
  if h = s.last_hdd then { t := s.t + loopDelay, last_hdd := h }
  else { t := s.t + delay + loopDelay, last_hdd := h }

def loopIter (delay loopDelay : Nat) (busy : Nat → Bool) :
    Nat → LoopState → LoopState
  | 0, s => s
  | n + 1, s => loopIter delay loopDelay busy n (loopStep delay loopDelay busy s)

/-- The iteration starting at state `s` observes a busy flip and so
triggers a state transition (stop current sample, start the other one,
hold for the state-change delay). -/
def transitionAt (busy : Nat → Bool) (s : LoopState) : Bool :=
  busy s.t != s.last_hdd

/-- Busy signal used by the C4 witness: a pulse from 5 ms to 19 ms. -/
def busyPulse (t : Nat) : Bool := decide (5 ≤ t ∧ t < 20)

/-! ### Shutdown effect traces, from HDDSynth.stop -/

/-- Externally observable side effects of the two shutdown routines. -/
inductive StopEffect where
  | voiceStop
  | setMuted (muted : Bool)
  | smDeactivate (sm : Nat)
  | audioDeinit
  | umount
deriving Repr, DecidableEq, BEq

/-- Effect trace of HDDSynth.stop in src/main_circuitpython.py lines
333-355: stop mixer voice 0 (if the mixer exists), drive the mute pin
high = muted (if the pin exists), then deactivate the two PIO state
machines.  The whole body is inside try/except, so it never raises. -/
def cpStopTrace (mixerPresent mutePresent iorPresent iowPresent : Bool) :
    List StopEffect :=
  (if mixerPresent then [StopEffect.voiceStop] else []) ++
  (if mutePresent then [StopEffect.setMuted true] else []) ++
  (if iorPresent then [StopEffect.smDeactivate 0] else []) ++
  (if iowPresent then [StopEffect.smDeactivate 1] else [])

/-- Effect trace of HDDSynth.stop in src/main.py lines 498-521: mute the
amplifier first, deactivate the PIO state machines, deinitialize the I2S
audio output, then try to unmount the SD card. -/
def mainPyStopTrace (iorPresent iowPresent audioPresent : Bool) :
    List StopEffect :=
  [StopEffect.setMuted true] ++
  (if iorPresent then [StopEffect.smDeactivate 0] else []) ++
  (if iowPresent then [StopEffect.smDeactivate 1] else []) ++
  (if audioPresent then [StopEffect.audioDeinit] else []) ++
  [StopEffect.umount]

/-- Position of the first occurrence of `e` in a trace. -/
def effectIndex (e : StopEffect) (tr : List StopEffect) : Nat :=
  tr.findIdx (fun x => x == e)

/-! ### Sample playback request, from HDDSynth._play_audio_file -/

/-- Collaborator behaviour seen by one _play_audio_file call: the files
os.listdir returns, and whether the os.stat call raises (the modelled
collaborator failure; the source catches every exception from the body). -/
structure PlaybackEnv where
  files : List String
  stat_raises : Bool
deriving Repr, DecidableEq

/-- Playback-relevant fields of HDDSynth (src/main.py): `audio_out` is
whether the I2S object exists, `muted` is the MUTE pin level
(true = muted). -/
structure PlaybackState where
  audio_out : Bool
  is_playing : Bool
  current_audio_file : Option String
  muted : Bool
deriving Repr, DecidableEq

/-- State-and-log embedding of HDDSynth._play_audio_file, src/main.py
lines 248-292: bail out (unchanged) when there is no audio output or the
file is absent from the directory listing; otherwise stop any current
playback, mark playing, unmute, and read the file size via os.stat — if
that collaborator call raises, the except clause logs and clears
`is_playing`/`current_audio_file`.  The function is total because the
source catches every exception; the background-playback bookkeeping
fields (positions, timers) and the loop flag are not modelled. -/
def play_audio_file (env : PlaybackEnv) (s : PlaybackState)
    (filename : String) : PlaybackState × List String :=
  if !s.audio_out then (s, ["No audio output available"]) else
  if !(env.files.contains filename) then
    (s, ["File not found in current directory"]) else
  let s1 : PlaybackState :=
    { s with is_playing := true, current_audio_file := some filename,
             muted := false }
  if env.stat_raises then
    ({ s1 with is_playing := false, current_audio_file := none },
      ["Error starting audio file"])
  else (s1, [])

/-! ### VolumeGovernor, from src/2_prototype_mk2/software/volume.py -/

/-- _get_volume_classic: the raw 0..65535 ADC value scaled to 0.0-1.0. -/
def get_volume_classic (raw : Nat) : ℚ := (raw : ℚ) / 65535

/-- _get_volume_discrete: the raw value is mapped to an integer level by
int((raw_value / 65535) * steps) — float truncation toward zero, which
for these nonnegative in-range products is exactly the rational floor,
i.e. natural division — and reported back as level / steps.  The
last_printed_level bookkeeping only controls logging and is not part of
the returned value. -/
def get_volume_discrete (raw steps : Nat) : ℚ :=
  ((raw * steps / 65535 : Nat) : ℚ) / (steps : ℚ)

/-- get_volume: dispatch on settings.VOLUME_DISCRETE. -/
def get_volume (discrete : Bool) (raw steps : Nat) : ℚ :=
  if discrete then get_volume_discrete raw steps else get_volume_classic raw

/-- Modelled from the spec's words, as the refinement target of claim C6
(the spec says the discrete mode is "rounding to nearest step"):
quantization to the NEAREST of `steps` steps. -/
def quantize_nearest_spec (raw steps : Nat) : ℚ :=
  ((round ((raw : ℚ) / 65535 * steps) : ℤ) : ℚ) / (steps : ℚ)

/-! ### Configuration validation, from src/config.py validate_config -/

/-- The configuration values validate_config inspects.  Values arrive
from Python as (unbounded, possibly negative) integers, so fields are
Int.  The three isinstance checks on booleans are not modelled: in the
embedding those fields are typed. -/
structure Config where
  addr_pin_base : Int
  ior_pin : Int
  iow_pin : Int
  sck_pin : Int
  mosi_pin : Int
  miso_pin : Int
  cs_pin : Int
  bck_pin : Int
  ws_pin : Int
  sd_pin : Int
  mute_pin : Int
  addr_pin_count : Int
  sample_rate_hz : Int
  bits_per_sample : Int
  channels : Int
  activity_threshold : Int
  activity_timeout_ms : Int
deriving Repr, DecidableEq

/-- The pins_to_check list of validate_config (src/config.py lines 64-67). -/
def pinsToCheck (c : Config) : List Int :=
  [c.addr_pin_base, c.ior_pin, c.iow_pin, c.sck_pin, c.mosi_pin,
   c.miso_pin, c.cs_pin, c.bck_pin, c.ws_pin, c.sd_pin, c.mute_pin]

/-- The warning lines printed by validate_config's checks, in source
order (src/config.py lines 69-97). -/
def config_warnings (c : Config) : List String :=
  ((pinsToCheck c).filter (fun p => !(decide (0 ≤ p ∧ p ≤ 29)))).map
      (fun _ => "Warning: Invalid GPIO pin number") ++
  (if c.addr_pin_count ≤ 0 ∨ c.addr_pin_base + c.addr_pin_count > 30 then
    ["Warning: Invalid address pin configuration"] else []) ++
  (if c.sample_rate_hz ≤ 0 then ["Warning: Invalid sample rate"] else []) ++
  (if c.bits_per_sample ∉ ([8, 16, 24, 32] : List Int) then
    ["Warning: Invalid bit depth"] else []) ++
  (if c.channels ∉ ([1, 2] : List Int) then
    ["Warning: Invalid channel count"] else []) ++
  (if c.activity_threshold ≤ 0 then
    ["Warning: Invalid activity threshold"] else []) ++
  (if c.activity_timeout_ms ≤ 0 then
    ["Warning: Invalid activity timeout"] else [])

/-- validate_config, src/config.py lines 61-99: every check only prints
a warning (the function contains no raise statement), and the last line
prints "Configuration validation passed" unconditionally.  The embedding
returns the list of printed lines, in order; it is total because the
source body cannot raise. -/
def validate_config (c : Config) : List String :=
  config_warnings c ++ ["Configuration validation passed"]

end HDDSynth

namespace HDDSynth

/-! ### Classifier lemmas -/

theorem classifyStep_data (timeout threshold c p l t : Nat)
    (_hl : l ≤ t) (ht : t - l < timeout) (hc : c + 1 ≤ threshold)
    (hp : p ≤ threshold) :
    classifyStep timeout threshold ⟨c, p, l⟩ t (some HDD_DATA_PORT) none =
      (⟨c + 1, p, t⟩, false) := by
  have h1 : ¬ (t - l > timeout) := by omega
  simp [classifyStep, thresholdStage, applySample, h1, Nat.not_lt.mpr hc,
    Nat.not_lt.mpr hp]

theorem runSamples_data_no_fire (timeout threshold : Nat) :
    ∀ (ts : List Nat) (c p last : Nat),
    withinTimeoutB timeout last ts = true →
    c + ts.length ≤ threshold → p ≤ threshold →
    runSamples timeout threshold ⟨c, p, last⟩ (dataTicks ts) =
      (⟨c + ts.length, p, lastTime last ts⟩, 0) := by
  intro ts
  induction ts with
  | nil => intro c p last _ _ _; simp [runSamples, dataTicks, lastTime]
  | cons t ts ih =>
    intro c p last hchain hc hp
    simp only [withinTimeoutB, Bool.and_eq_true, decide_eq_true_eq] at hchain
    obtain ⟨⟨hle, hlt⟩, hrest⟩ := hchain
    have hstep := classifyStep_data timeout threshold c p last t hle hlt
      (by simp at hc; omega) hp
    have hrec := ih (c + 1) p t hrest (by simp at hc ⊢; omega) hp
    simp only [dataTicks, List.map_cons, runSamples, hstep]
    simp only [dataTicks] at hrec
    rw [hrec]
    have h2 : lastTime last (t :: ts) = lastTime t ts := rfl
    have h3 : c + (t :: ts).length = c + 1 + ts.length := by
      simp only [List.length_cons]; omega
    rw [h2, h3]
    simp

theorem classifyStep_data_fire (timeout threshold p l t : Nat)
    (ht : t - l < timeout) (hp : p ≤ threshold) :
    classifyStep timeout threshold ⟨threshold, p, l⟩ t (some HDD_DATA_PORT)
      none = (⟨0, p, t⟩, true) := by
  have h1 : ¬ (t - l > timeout) := by omega
  have h2 : threshold < threshold + 1 := Nat.lt_succ_self _
  simp [classifyStep, thresholdStage, applySample, h1, h2, Nat.not_lt.mpr hp]

theorem dataTicks_append (xs ys : List Nat) :
    dataTicks (xs ++ ys) = dataTicks xs ++ dataTicks ys := by
  simp [dataTicks]

theorem withinTimeoutB_append (timeout : Nat) :
    ∀ (xs : List Nat) (last : Nat) (ys : List Nat),
    withinTimeoutB timeout last (xs ++ ys) = true →
    withinTimeoutB timeout last xs = true ∧
      withinTimeoutB timeout (lastTime last xs) ys = true := by
  intro xs
  induction xs with
  | nil => intro last ys h; exact ⟨rfl, h⟩
  | cons x xs ih =>
    intro last ys h
    simp only [List.cons_append, withinTimeoutB, Bool.and_eq_true] at h ⊢
    obtain ⟨hx, hrest⟩ := h
    have hih := ih x ys hrest
    exact ⟨⟨hx, hih.1⟩, hih.2⟩

theorem runSamples_append (timeout threshold : Nat) :
    ∀ (xs ys : List (Nat × Option Nat × Option Nat)) (s : ClassifierState),
    runSamples timeout threshold s (xs ++ ys) =
      ((runSamples timeout threshold (runSamples timeout threshold s xs).1 ys).1,
       (runSamples timeout threshold s xs).2 +
         (runSamples timeout threshold (runSamples timeout threshold s xs).1 ys).2) := by
  intro xs
  induction xs with
  | nil => intro ys s; simp [runSamples]
  | cons x xs ih =>
    intro ys s
    simp only [List.cons_append, runSamples, List.append_eq]
    rw [ih]
    simp [Nat.add_assoc]

/-- Claim C1: for a chain of data-port samples whose inter-arrival gaps
stay below ACTIVITY_TIMEOUT, the busy output first fires on the tick where
the accumulated count exceeds ACTIVITY_THRESHOLD — with threshold
`ts.length` samples accumulated and no fire yet, the next sample fires
busy exactly once and resets the data counter to zero, and the sample
after that starts a fresh count at 1.  The witness instantiates
Scenario A: threshold 20, timeout 50 ms, 21 samples 1 ms apart, then a
22nd sample. -/
theorem C1_threshold_pulse (timeout threshold l0 t1 t2 : Nat) (ts : List Nat)
    (hchain : withinTimeoutB timeout l0 (ts ++ [t1, t2]) = true)
    (hlen : ts.length = threshold) (hpos : 0 < threshold) :
    (runSamples timeout threshold ⟨0, 0, l0⟩ (dataTicks (ts ++ [t1]))).2 = 1 ∧
    (runSamples timeout threshold ⟨0, 0, l0⟩
        (dataTicks (ts ++ [t1]))).1.data_count = 0 ∧
    (runSamples timeout threshold ⟨0, 0, l0⟩ (dataTicks (ts ++ [t1, t2]))).2 = 1 ∧
    (runSamples timeout threshold ⟨0, 0, l0⟩
        (dataTicks (ts ++ [t1, t2]))).1.data_count = 1 := by
  obtain ⟨hts, hrest⟩ := withinTimeoutB_append timeout ts l0 [t1, t2] hchain
  simp only [withinTimeoutB, Bool.and_eq_true, decide_eq_true_eq] at hrest
  obtain ⟨⟨hle1, hlt1⟩, ⟨hle2, hlt2⟩, -⟩ := hrest
  have hrun : runSamples timeout threshold ⟨0, 0, l0⟩ (dataTicks ts) =
      (⟨threshold, 0, lastTime l0 ts⟩, 0) := by
    have h := runSamples_data_no_fire timeout threshold ts 0 0 l0 hts
      (by omega) (by omega)
    simpa [hlen] using h
  have hfire := classifyStep_data_fire timeout threshold 0 (lastTime l0 ts) t1
    hlt1 (by omega)
  have hnext := classifyStep_data timeout threshold 0 0 t1 t2 hle2 hlt2
    (by omega) (by omega)
  have e1 : runSamples timeout threshold ⟨0, 0, l0⟩ (dataTicks (ts ++ [t1])) =
      (⟨0, 0, t1⟩, 1) := by
    rw [dataTicks_append, runSamples_append, hrun]
    simp [runSamples, dataTicks, hfire]
  have e2 : runSamples timeout threshold ⟨0, 0, l0⟩
      (dataTicks (ts ++ [t1, t2])) = (⟨1, 0, t2⟩, 1) := by
    rw [dataTicks_append, runSamples_append, hrun]
    simp [runSamples, dataTicks, hfire, hnext]
  rw [e1, e2]
  simp

/-- Witness for C1: Scenario A with threshold 20 and timeout 50 ms — the
first 21 samples are at times 0,1,...,20 (1 ms apart) and the 22nd at
21 ms. -/
theorem C1_threshold_pulse_witness :
    (withinTimeoutB 50 0 (List.range 20 ++ [20, 21]) = true ∧
      (List.range 20).length = 20 ∧ 0 < 20) ∧
    ((runSamples 50 20 ⟨0, 0, 0⟩ (dataTicks (List.range 20 ++ [20]))).2 = 1 ∧
     (runSamples 50 20 ⟨0, 0, 0⟩
        (dataTicks (List.range 20 ++ [20]))).1.data_count = 0 ∧
     (runSamples 50 20 ⟨0, 0, 0⟩
        (dataTicks (List.range 20 ++ [20, 21]))).2 = 1 ∧
     (runSamples 50 20 ⟨0, 0, 0⟩
        (dataTicks (List.range 20 ++ [20, 21]))).1.data_count = 1) :=
  ⟨⟨by decide, by decide, by decide⟩,
    C1_threshold_pulse 50 20 0 20 21 (List.range 20) (by decide) (by decide)
      (by decide)⟩

/-- Claim C2: when the time since `last_activity_time` exceeds
ACTIVITY_TIMEOUT, the iteration resets both counters to zero — on a tick
with no new sample the state becomes exactly (0, 0, unchanged timestamp)
with busy false, and on any tick the outcome is the same as if the
incoming counters had already been zero, so sub-threshold counts never
carry across a timeout boundary.  The last conjunct is Scenario B:
threshold 20, timeout 50 ms, 10 samples at 0..9 ms, a 61 ms gap, then 10
samples at 70..79 ms — busy never fires. -/
theorem C2_timeout_reset (timeout threshold : Nat) :
    (∀ (s : ClassifierState) (t : Nat),
       t - s.last_activity_time > timeout →
       classifyStep timeout threshold s t none none =
         (⟨0, 0, s.last_activity_time⟩, false)) ∧
    (∀ (s : ClassifierState) (t : Nat) (ior iow : Option Nat),
       t - s.last_activity_time > timeout →
       classifyStep timeout threshold s t ior iow =
         classifyStep timeout threshold ⟨0, 0, s.last_activity_time⟩ t
           ior iow) ∧
    (runSamples 50 20 ⟨0, 0, 0⟩
      (dataTicks (List.range 10 ++ (List.range 10).map (fun t => t + 70)))).2
      = 0 := by
  refine ⟨?_, ?_, by decide⟩
  · intro s t h
    simp [classifyStep, thresholdStage, applySample, h]
  · intro s t ior iow h
    simp [classifyStep, applySample, h]

/-- Witness for C2: a tick at 100 ms with `last_activity_time = 0` and
timeout 50 exceeds the window, so counters (7, 9) are wiped whether or
not a sample arrives. -/
theorem C2_timeout_reset_witness :
    ((100 : Nat) - 0 > 50) ∧
    classifyStep 50 20 ⟨7, 9, 0⟩ 100 none none = (⟨0, 0, 0⟩, false) ∧
    classifyStep 50 20 ⟨7, 9, 0⟩ 100 (some HDD_DATA_PORT) none =
      classifyStep 50 20 ⟨0, 0, 0⟩ 100 (some HDD_DATA_PORT) none :=
  ⟨by decide, (C2_timeout_reset 50 20).1 ⟨7, 9, 0⟩ 100 (by decide),
    (C2_timeout_reset 50 20).2.1 ⟨7, 9, 0⟩ 100 (some HDD_DATA_PORT) none
      (by decide)⟩

/-- Claim C3 counterexample: a sample at the non-monitored address 0x123,
consumed at 10 ms from a state whose `last_activity_time` is 0, leaves
the counters alone but DOES update `last_activity_time` to 10 — the
source assigns `last_activity_time = current_time` before inspecting the
address (main_mk3_debounce.py lines 119-121), so a non-qualifying sample
does not leave it unchanged as the claim states. -/
theorem C3_counterexample :
    (0x123 : Nat) ≠ HDD_DATA_PORT ∧ (0x123 : Nat) ≠ HDD_STATUS_PORT ∧
    (classifyStep 50 20 ⟨0, 0, 0⟩ 10 (some 0x123)
      none).1.last_activity_time = 10 ∧ (10 : Nat) ≠ 0 := by
  decide

/-- Claim C3 as amended: every dequeued sample updates
`last_activity_time` to the tick's current time regardless of its
address; a sample at a non-qualifying address leaves both counters
unchanged (absent a timeout reset or an already-over-threshold
counter) and contributes no busy output. -/
theorem C3_last_event_update (timeout threshold : Nat) (s : ClassifierState)
    (t a : Nat) (hto : t - s.last_activity_time ≤ timeout)
    (hd : s.data_count ≤ threshold) (hp : s.poll_count ≤ threshold)
    (ha1 : a ≠ HDD_DATA_PORT) (ha2 : a ≠ HDD_STATUS_PORT) :
    classifyStep timeout threshold s t (some a) none =
      ({ s with last_activity_time := t }, false) := by
  have h1 : ¬ (t - s.last_activity_time > timeout) := by omega
  simp [classifyStep, thresholdStage, applySample, h1, ha1, ha2,
    Nat.not_lt.mpr hd, Nat.not_lt.mpr hp]

/-- Witness for the amended C3 at a concrete non-qualifying address. -/
theorem C3_last_event_update_witness :
    ((10 : Nat) - 0 ≤ 50 ∧ (5 : Nat) ≤ 20 ∧ (3 : Nat) ≤ 20 ∧
      (0x123 : Nat) ≠ HDD_DATA_PORT ∧ (0x123 : Nat) ≠ HDD_STATUS_PORT) ∧
    classifyStep 50 20 ⟨5, 3, 0⟩ 10 (some 0x123) none = (⟨5, 3, 10⟩, false) :=
  ⟨⟨by decide, by decide, by decide, by decide, by decide⟩,
    C3_last_event_update 50 20 ⟨5, 3, 0⟩ 10 0x123 (by decide) (by decide)
      (by decide) (by decide) (by decide)⟩

/-- Claim C8: ticks on which no FIFO word is available, taken while the
elapsed time since `last_activity_time` stays within the timeout and the
counters are at their invariant bound, leave the classifier state exactly
unchanged and produce no busy output, however many such ticks occur. -/
theorem C8_no_sample_idempotent (timeout threshold : Nat)
    (s : ClassifierState) (ts : List Nat)
    (hd : s.data_count ≤ threshold) (hp : s.poll_count ≤ threshold)
    (hts : ∀ t ∈ ts, t - s.last_activity_time ≤ timeout) :
    runSamples timeout threshold s (idleTicks ts) = (s, 0) := by
  induction ts with
  | nil => simp [runSamples, idleTicks]
  | cons t ts ih =>
    have hstep : classifyStep timeout threshold s t none none = (s, false) := by
      have h1 : ¬ (t - s.last_activity_time > timeout) := by
        have := hts t (List.mem_cons_self t ts); omega
      simp [classifyStep, thresholdStage, applySample, h1,
        Nat.not_lt.mpr hd, Nat.not_lt.mpr hp]
    have hrec := ih (fun u hu => hts u (List.mem_cons_of_mem t hu))
    simp only [idleTicks, List.map_cons, runSamples, hstep]
    simp only [idleTicks] at hrec
    rw [hrec]
    simp

/-- Witness for C8: three empty ticks at 1, 2, 3 ms against state
(5, 3, 0) with threshold 20 and timeout 50. -/
theorem C8_no_sample_idempotent_witness :
    ((5 : Nat) ≤ 20 ∧ (3 : Nat) ≤ 20 ∧
      ∀ t ∈ [1, 2, 3], t - 0 ≤ (50 : Nat)) ∧
    runSamples 50 20 ⟨5, 3, 0⟩ (idleTicks [1, 2, 3]) = (⟨5, 3, 0⟩, 0) :=
  ⟨⟨by decide, by decide, by decide⟩,
    C8_no_sample_idempotent 50 20 ⟨5, 3, 0⟩ [1, 2, 3] (by decide) (by decide)
      (by decide)⟩

theorem thresholdStage_bound (threshold : Nat) (s : ClassifierState) :
    (thresholdStage threshold s).1.data_count ≤ threshold ∧
    (thresholdStage threshold s).1.poll_count ≤ threshold := by
  simp only [thresholdStage]
  by_cases hd : s.data_count > threshold <;>
    by_cases hp : s.poll_count > threshold <;>
      simp [hd, hp] <;> omega

/-- Claim C10: at the end of every loop iteration both activity counters
are at most ACTIVITY_THRESHOLD — whatever the incoming state and whatever
samples arrive, the closing threshold checks reset any counter that
exceeded the threshold, so counters never grow without bound. -/
theorem C10_counters_bounded (timeout threshold t : Nat)
    (s : ClassifierState) (ior iow : Option Nat) :
    (classifyStep timeout threshold s t ior iow).1.data_count ≤ threshold ∧
    (classifyStep timeout threshold s t ior iow).1.poll_count ≤ threshold := by
  simp only [classifyStep]
  exact thresholdStage_bound threshold _

/-! ### Control-loop hysteresis lemmas -/

theorem loopStep_t_ge (delay loopDelay : Nat) (busy : Nat → Bool)
    (s : LoopState) : s.t + loopDelay ≤ (loopStep delay loopDelay busy s).t := by
  simp only [loopStep]
  split <;> simp

theorem loopIter_t_mono (delay loopDelay : Nat) (busy : Nat → Bool) :
    ∀ (n : Nat) (s : LoopState),
      s.t ≤ (loopIter delay loopDelay busy n s).t := by
  intro n
  induction n with
  | zero => intro s; simp [loopIter]
  | succ n ih =>
    intro s
    have h1 := loopStep_t_ge delay loopDelay busy s
    have h2 := ih (loopStep delay loopDelay busy s)
    simp only [loopIter]
    omega

theorem loopIter_add (delay loopDelay : Nat) (busy : Nat → Bool) :
    ∀ (a b : Nat) (s : LoopState),
      loopIter delay loopDelay busy (a + b) s =
        loopIter delay loopDelay busy b (loopIter delay loopDelay busy a s) := by
  intro a
  induction a with
  | zero => intro b s; simp [loopIter]
  | succ a ih =>
    intro b s
    have h : a + 1 + b = (a + b) + 1 := by omega
    rw [h]
    simp only [loopIter]
    exact ih b (loopStep delay loopDelay busy s)

/-- Claim C4: hysteresis of the audio state machine.  Whenever iteration
`n` of the polling loop triggers a transition (the polled busy signal
differs from `last_hdd`), any later iteration `m` — in particular the
transition back, however quickly the busy signal flapped underneath —
starts at a clock time at least MIN_STATE_CHANGE_DELAY after the first
transition's trigger time, because the transition branch sleeps for the
delay before the loop polls again. -/
theorem C4_transition_hysteresis (delay loopDelay : Nat) (busy : Nat → Bool)
    (s : LoopState) (n m : Nat) (hnm : n < m)
    (h1 : transitionAt busy (loopIter delay loopDelay busy n s) = true)
    (_h2 : transitionAt busy (loopIter delay loopDelay busy m s) = true) :
    (loopIter delay loopDelay busy n s).t + delay ≤
      (loopIter delay loopDelay busy m s).t := by
  obtain ⟨j, rfl⟩ : ∃ j, m = n + (j + 1) := ⟨m - n - 1, by omega⟩
  have hne : busy (loopIter delay loopDelay busy n s).t ≠
      (loopIter delay loopDelay busy n s).last_hdd := by
    simpa [transitionAt, bne_iff_ne] using h1
  have hstep : (loopStep delay loopDelay busy
      (loopIter delay loopDelay busy n s)).t =
      (loopIter delay loopDelay busy n s).t + delay + loopDelay := by
    simp only [loopStep]
    rw [if_neg hne]
  have hcomp : loopIter delay loopDelay busy (n + (j + 1)) s =
      loopIter delay loopDelay busy j
        (loopStep delay loopDelay busy (loopIter delay loopDelay busy n s)) := by
    rw [loopIter_add]
    simp only [loopIter]
  have hmono := loopIter_t_mono delay loopDelay busy j
    (loopStep delay loopDelay busy (loopIter delay loopDelay busy n s))
  rw [hcomp]
  omega

/-- Witness for C4: with the 50 ms state-change delay, the 1 ms loop
delay and a busy pulse lasting 5..19 ms, iteration 5 transitions
IDLE→ACCESS at t = 5 and the return transition at iteration 6 happens at
t = 56 ≥ 5 + 50, even though the signal fell back within 15 ms. -/
theorem C4_transition_hysteresis_witness :
    ((5 : Nat) < 6 ∧
      transitionAt busyPulse (loopIter 50 1 busyPulse 5 ⟨0, false⟩) = true ∧
      transitionAt busyPulse (loopIter 50 1 busyPulse 6 ⟨0, false⟩) = true) ∧
    (loopIter 50 1 busyPulse 5 ⟨0, false⟩).t + 50 ≤
      (loopIter 50 1 busyPulse 6 ⟨0, false⟩).t :=
  ⟨⟨by decide, by decide, by decide⟩,
    C4_transition_hysteresis 50 1 busyPulse ⟨0, false⟩ 5 6 (by decide)
      (by decide) (by decide)⟩

/-- Claim C5 counterexample: in src/main.py's HDDSynth.stop — one of the
two shutdown routines the claim covers — the amplifier is muted as the
FIRST action and the I2S playback output is deinitialized only
afterwards, so the claimed order "stop(), then set_muted(true)" is false
there (each still happens exactly once). -/
theorem C5_counterexample :
    (mainPyStopTrace true true true).count (StopEffect.setMuted true) = 1 ∧
    (mainPyStopTrace true true true).count StopEffect.audioDeinit = 1 ∧
    ¬ (effectIndex StopEffect.audioDeinit (mainPyStopTrace true true true) <
        effectIndex (StopEffect.setMuted true)
          (mainPyStopTrace true true true)) := by
  decide

/-- Claim C5 as amended: on a shutdown signal mid-playback the
CircuitPython implementation stops playback and then mutes the
amplifier, in that order, exactly once each; the MicroPython main.py
implementation mutes first and deinitializes the audio output
afterwards, also exactly once each; in both, no unmute ever follows, so
the amplifier is never left unmuted on exit. -/
theorem C5_shutdown_effects :
    ((cpStopTrace true true true true).count StopEffect.voiceStop = 1 ∧
     (cpStopTrace true true true true).count (StopEffect.setMuted true) = 1 ∧
     effectIndex StopEffect.voiceStop (cpStopTrace true true true true) <
       effectIndex (StopEffect.setMuted true) (cpStopTrace true true true true) ∧
     (cpStopTrace true true true true).count (StopEffect.setMuted false) = 0) ∧
    ((mainPyStopTrace true true true).count (StopEffect.setMuted true) = 1 ∧
     (mainPyStopTrace true true true).count StopEffect.audioDeinit = 1 ∧
     effectIndex (StopEffect.setMuted true) (mainPyStopTrace true true true) <
       effectIndex StopEffect.audioDeinit (mainPyStopTrace true true true) ∧
     (mainPyStopTrace true true true).count (StopEffect.setMuted false) = 0) := by
  decide

/-- Claim C6 counterexample: the discrete volume mode does not round to
the nearest step.  At raw reading 1300 with 50 steps the exact scaled
level is 65000 / 65535 ≈ 0.992 of a step: rounding to nearest would give
step 1 (output 1/50), but _get_volume_discrete truncates and returns 0. -/
theorem C6_counterexample :
    get_volume_discrete 1300 50 ≠ quantize_nearest_spec 1300 50 := by
  have h1 : get_volume_discrete 1300 50 = 0 := by
    norm_num [get_volume_discrete]
  have hround : round ((1300 : ℚ) / 65535 * 50) = 1 := by
    rw [round_eq, Int.floor_eq_iff]
    constructor <;> norm_num
  have h2 : quantize_nearest_spec 1300 50 = 1 / 50 := by
    rw [quantize_nearest_spec]
    push_cast
    rw [hround]
    norm_num
  rw [h1, h2]
  norm_num

/-- Claim C6 as amended: for any in-range ADC reading, read_level (both
modes) returns a value in [0, 1]; the discrete mode truncates the scaled
reading — it reports floor((raw / 65535) · steps) / steps, the step at
or below the reading, not the nearest step. -/
theorem C6_volume_level (raw steps : Nat) (hraw : raw ≤ 65535)
    (hsteps : 0 < steps) :
    (∀ d : Bool, 0 ≤ get_volume d raw steps ∧ get_volume d raw steps ≤ 1) ∧
    get_volume_discrete raw steps =
      ((Nat.floor ((raw : ℚ) * steps / 65535)) : ℚ) / (steps : ℚ) := by
  have hlevel : raw * steps / 65535 ≤ steps := by
    have h1 : raw * steps ≤ 65535 * steps :=
      Nat.mul_le_mul_right steps hraw
    have h2 : raw * steps / 65535 ≤ 65535 * steps / 65535 :=
      Nat.div_le_div_right h1
    have h3 : 65535 * steps / 65535 = steps :=
      Nat.mul_div_cancel_left steps (by norm_num)
    omega
  have hclassic : 0 ≤ get_volume_classic raw ∧ get_volume_classic raw ≤ 1 := by
    unfold get_volume_classic
    constructor
    · positivity
    · rw [div_le_one (by norm_num : (0 : ℚ) < 65535)]
      exact_mod_cast hraw
  have hdisc : 0 ≤ get_volume_discrete raw steps ∧
      get_volume_discrete raw steps ≤ 1 := by
    unfold get_volume_discrete
    constructor
    · positivity
    · have hq : (0 : ℚ) < (steps : ℚ) := by exact_mod_cast hsteps
      rw [div_le_one hq]
      exact_mod_cast hlevel
  refine ⟨?_, ?_⟩
  · intro d
    cases d
    · simpa [get_volume] using hclassic
    · simpa [get_volume] using hdisc
  · have hfloor : Nat.floor (((raw * steps : Nat) : ℚ) / ((65535 : Nat) : ℚ)) =
        raw * steps / 65535 := Nat.floor_div_eq_div _ _
    have hcast : (raw : ℚ) * (steps : ℚ) / 65535 =
        ((raw * steps : Nat) : ℚ) / ((65535 : Nat) : ℚ) := by
      push_cast; ring
    unfold get_volume_discrete
    rw [hcast, hfloor]

/-- Witness for C6 at the mk2 defaults: 50 discrete steps, a mid-scale
reading of 32768. -/
theorem C6_volume_level_witness :
    ((32768 : Nat) ≤ 65535 ∧ (0 : Nat) < 50) ∧
    ((∀ d : Bool, 0 ≤ get_volume d 32768 50 ∧ get_volume d 32768 50 ≤ 1) ∧
     get_volume_discrete 32768 50 =
       ((Nat.floor ((32768 : ℚ) * 50 / 65535)) : ℚ) / (50 : ℚ)) :=
  ⟨⟨by decide, by decide⟩, C6_volume_level 32768 50 (by decide) (by decide)⟩

/-- Claim C7 counterexample: a collaborator failure (os.stat raising)
during a play request does NOT leave the playback state unchanged — the
current playback has already been torn down, so the state degrades to
silence (is_playing cleared) instead.  Concretely: while playing the
idle sample, a request for the access sample whose size query fails
flips is_playing from true to false. -/
theorem C7_counterexample :
    (play_audio_file ⟨["nec_access.wav"], true⟩
        ⟨true, true, some "nec_idle_long.wav", false⟩ "nec_access.wav").1 ≠
      ⟨true, true, some "nec_idle_long.wav", false⟩ := by
  decide

/-- Claim C7 as amended: a play request never raises (the embedding is a
total function because the source catches every exception), logs each
failure, and: when the file is missing from the directory listing the
playback state is left exactly unchanged; when a collaborator call
fails after playback teardown has begun, the state degrades to silence —
is_playing false and no current file — rather than crashing. -/
theorem C7_sample_unavailable (env : PlaybackEnv) (s : PlaybackState)
    (ha : s.audio_out = true) :
    (∀ fn, env.files.contains fn = false →
      play_audio_file env s fn = (s, ["File not found in current directory"])) ∧
    (∀ fn, env.files.contains fn = true → env.stat_raises = true →
      (play_audio_file env s fn).1.is_playing = false ∧
      (play_audio_file env s fn).1.current_audio_file = none ∧
      (play_audio_file env s fn).2 = ["Error starting audio file"]) := by
  constructor
  · intro fn h
    have h' : fn ∉ env.files := by simpa using h
    simp [play_audio_file, ha, h']
  · intro fn h hr
    have h' : fn ∈ env.files := by simpa using h
    simp [play_audio_file, ha, h', hr]

/-- Witness for C7: an SD card holding only the access sample; a request
for a missing file is a no-op, and a request for the access sample with
a failing os.stat ends not-playing with the failure logged. -/
theorem C7_sample_unavailable_witness :
    ((⟨true, true, some "nec_idle_long.wav", false⟩ :
        PlaybackState).audio_out = true) ∧
    (play_audio_file ⟨["nec_access.wav"], true⟩
        ⟨true, true, some "nec_idle_long.wav", false⟩ "missing.wav" =
      (⟨true, true, some "nec_idle_long.wav", false⟩,
        ["File not found in current directory"])) ∧
    ((play_audio_file ⟨["nec_access.wav"], true⟩
        ⟨true, true, some "nec_idle_long.wav", false⟩
        "nec_access.wav").1.is_playing = false ∧
     (play_audio_file ⟨["nec_access.wav"], true⟩
        ⟨true, true, some "nec_idle_long.wav", false⟩
        "nec_access.wav").1.current_audio_file = none ∧
     (play_audio_file ⟨["nec_access.wav"], true⟩
        ⟨true, true, some "nec_idle_long.wav", false⟩
        "nec_access.wav").2 = ["Error starting audio file"]) :=
  ⟨rfl,
    (C7_sample_unavailable ⟨["nec_access.wav"], true⟩
      ⟨true, true, some "nec_idle_long.wav", false⟩ rfl).1 "missing.wav"
      (by decide),
    (C7_sample_unavailable ⟨["nec_access.wav"], true⟩
      ⟨true, true, some "nec_idle_long.wav", false⟩ rfl).2 "nec_access.wav"
      (by decide) rfl⟩

/-- Claim C9: validate_config detects an out-of-range GPIO pin or a
non-positive activity threshold/timeout and surfaces it as a warning
line, but never raises and never halts: whatever the configuration, the
run always completes with the unconditional final
"Configuration validation passed" line, leaving the caller to continue
into the core loop. -/
theorem C9_validate_config_warns (c : Config)
    (h : (∃ p ∈ pinsToCheck c, p < 0 ∨ 29 < p) ∨
      c.activity_threshold ≤ 0 ∨ c.activity_timeout_ms ≤ 0) :
    (validate_config c).getLast? = some "Configuration validation passed" ∧
    config_warnings c ≠ [] ∧
    2 ≤ (validate_config c).length := by
  have hlast : (validate_config c).getLast? =
      some "Configuration validation passed" := by
    unfold validate_config
    rw [List.getLast?_append_cons]
    rfl
  have hwarn : config_warnings c ≠ [] := by
    rcases h with ⟨p, hmem, hp⟩ | hthr | htim
    · have hfil : p ∈ (pinsToCheck c).filter
          (fun q => !(decide (0 ≤ q ∧ q ≤ 29))) := by
        rw [List.mem_filter]
        refine ⟨hmem, ?_⟩
        simp only [Bool.not_eq_true', decide_eq_false_iff_not]
        omega
      have hin : "Warning: Invalid GPIO pin number" ∈ config_warnings c := by
        unfold config_warnings
        apply List.mem_append_left
        apply List.mem_append_left
        apply List.mem_append_left
        apply List.mem_append_left
        apply List.mem_append_left
        apply List.mem_append_left
        exact List.mem_map.mpr ⟨p, hfil, rfl⟩
      exact List.ne_nil_of_mem hin
    · have hin : "Warning: Invalid activity threshold" ∈ config_warnings c := by
        unfold config_warnings
        apply List.mem_append_left
        apply List.mem_append_right
        rw [if_pos hthr]
        simp
      exact List.ne_nil_of_mem hin
    · have hin : "Warning: Invalid activity timeout" ∈ config_warnings c := by
        unfold config_warnings
        apply List.mem_append_right
        rw [if_pos htim]
        simp
      exact List.ne_nil_of_mem hin
  refine ⟨hlast, hwarn, ?_⟩
  unfold validate_config
  rw [List.length_append]
  have := List.length_pos.mpr hwarn
  simp only [List.length_singleton]
  omega

/-- Witness for C9: the shipped config.py values but with IOR_PIN moved
to GPIO 42 (out of the Pico's 0..29 range) — a warning line is emitted
and the run still ends with the passed message. -/
theorem C9_validate_config_warns_witness :
    ((∃ p ∈ pinsToCheck ⟨0, 42, 11, 14, 15, 12, 13, 26, 27, 28, 22, 10,
        16000, 16, 1, 20, 50⟩, p < 0 ∨ 29 < p) ∨
      (20 : Int) ≤ 0 ∨ (50 : Int) ≤ 0) ∧
    ((validate_config ⟨0, 42, 11, 14, 15, 12, 13, 26, 27, 28, 22, 10,
        16000, 16, 1, 20, 50⟩).getLast? =
          some "Configuration validation passed" ∧
      config_warnings ⟨0, 42, 11, 14, 15, 12, 13, 26, 27, 28, 22, 10,
        16000, 16, 1, 20, 50⟩ ≠ [] ∧
      2 ≤ (validate_config ⟨0, 42, 11, 14, 15, 12, 13, 26, 27, 28, 22, 10,
        16000, 16, 1, 20, 50⟩).length) :=
  ⟨by decide,
    C9_validate_config_warns ⟨0, 42, 11, 14, 15, 12, 13, 26, 27, 28, 22, 10,
      16000, 16, 1, 20, 50⟩ (by decide)⟩

end HDDSynth
